import Mathlib

/-!
Shallow embedding of `pkg/packet/bgp/mup.go` (BGP MUP SAFI wire codec):
the MUP extended community, the four MUP route-variant codecs, the route-type
registry and the MUPNLRI envelope, together with theorems about the codec's
decode/encode behaviour.

Byte strings are `List Nat` (each entry a byte value).  Go functions that can
return an error or panic are modelled with `GoResult`.
-/

/-- Outcome of a Go function call: a value, a returned `*MessageError`
(all errors in mup.go are `BGP_ERROR_SUB_MALFORMED_ATTRIBUTE_LIST`, i.e. a
MalformedAttribute error, carrying a message string), or a runtime panic
(index / slice out of range). -/
inductive GoResult (α : Type) where
  | ok (val : α)
  | err (msg : String)
  | crash
deriving DecidableEq

/-- `binary.BigEndian.PutUint16`: the two big-endian octets of `v` (mod 2^16). -/
def putUint16 (v : Nat) : List Nat := [v / 256 % 256, v % 256]

/-- `binary.BigEndian.PutUint32`: the four big-endian octets of `v` (mod 2^32). -/
def putUint32 (v : Nat) : List Nat :=
  [v / 16777216 % 256, v / 65536 % 256, v / 256 % 256, v % 256]

/-- `binary.BigEndian.Uint16(b)`: reads the first two octets of `b`;
`none` models the runtime panic when `b` is shorter than 2. -/
def goUint16 (b : List Nat) : Option Nat :=
  match b with
  | b0 :: b1 :: _ => some (b0 * 256 + b1)
  | _ => none

/-- `binary.BigEndian.Uint32(b)`: reads the first four octets of `b`;
`none` models the runtime panic when `b` is shorter than 4. -/
def goUint32 (b : List Nat) : Option Nat :=
  match b with
  | b0 :: b1 :: b2 :: b3 :: _ => some (((b0 * 256 + b1) * 256 + b2) * 256 + b3)
  | _ => none

/-- Go slice expression `data[a:b]`; `none` models the slice-bounds panic. -/
def goSlice (data : List Nat) (a b : Nat) : Option (List Nat) :=
  if a ≤ b ∧ b ≤ data.length then some ((data.drop a).take (b - a)) else none

/-- `net/netip.Addr`: the zero (invalid) address, an IPv4 address
(4 octets) or an IPv6 address (16 octets). -/
inductive Addr where
  | zero
  | v4 (a0 a1 a2 a3 : Nat)
  | v6 (a0 a1 a2 a3 a4 a5 a6 a7 a8 a9 a10 a11 a12 a13 a14 a15 : Nat)
deriving DecidableEq

/-- `netip.Addr.AsSlice`: 0, 4 or 16 octets. -/
def Addr.asSlice : Addr → List Nat
  | .zero => []
  | .v4 a0 a1 a2 a3 => [a0, a1, a2, a3]
  | .v6 a0 a1 a2 a3 a4 a5 a6 a7 a8 a9 a10 a11 a12 a13 a14 a15 =>
      [a0, a1, a2, a3, a4, a5, a6, a7, a8, a9, a10, a11, a12, a13, a14, a15]

/-- `netip.Addr.BitLen`: 0 for the zero address, 32 for IPv4, 128 for IPv6. -/
def Addr.bitLen : Addr → Nat
  | .zero => 0
  | .v4 _ _ _ _ => 32
  | .v6 _ _ _ _ _ _ _ _ _ _ _ _ _ _ _ _ => 128

/-- `netip.Addr.Is6`. -/
def Addr.is6 : Addr → Bool
  | .v6 _ _ _ _ _ _ _ _ _ _ _ _ _ _ _ _ => true
  | _ => false

/-- `netip.AddrFromSlice`: succeeds exactly on 4- and 16-octet slices. -/
def AddrFromSlice (b : List Nat) : Option Addr :=
  match b with
  | [a0, a1, a2, a3] => some (.v4 a0 a1 a2 a3)
  | [a0, a1, a2, a3, a4, a5, a6, a7, a8, a9, a10, a11, a12, a13, a14, a15] =>
      some (.v6 a0 a1 a2 a3 a4 a5 a6 a7 a8 a9 a10 a11 a12 a13 a14 a15)
  | _ => none

/-- `net/netip.Prefix`: address plus prefix bit count; `bits = -1` marks the
invalid prefix (as returned by `Prefix.Bits()`). -/
structure IPPrefix where
  addr : Addr
  bits : Int
deriving DecidableEq

/-- `netip.PrefixFrom`: keeps the address as given (no masking); a zero address
or an out-of-range bit count makes `Bits()` report -1. -/
def PrefixFrom (a : Addr) (b : Int) : IPPrefix :=
  if a ≠ Addr.zero ∧ 0 ≤ b ∧ b ≤ (a.bitLen : Int) then ⟨a, b⟩ else ⟨a, -1⟩

/-- Modelled from the spec: the route-distinguisher collaborator (its Go code
is not under src/): "opaque 8-octet identifier with its own decode/encode and
a factory that inspects raw bytes to produce the correct concrete instance". -/
structure RouteDistinguisher where
  b0 : Nat
  b1 : Nat
  b2 : Nat
  b3 : Nat
  b4 : Nat
  b5 : Nat
  b6 : Nat
  b7 : Nat
deriving DecidableEq

/-- Modelled from the spec: `GetRouteDistinguisher`, the collaborator factory;
it consumes the leading 8 octets of the buffer. -/
def GetRouteDistinguisher (data : List Nat) : RouteDistinguisher :=
  ⟨data.getD 0 0, data.getD 1 0, data.getD 2 0, data.getD 3 0,
   data.getD 4 0, data.getD 5 0, data.getD 6 0, data.getD 7 0⟩

/-- Modelled from the spec: the collaborator's length report (`RD.Len()`),
nominally 8 octets. -/
def RouteDistinguisher.rdLen (_ : RouteDistinguisher) : Nat := 8

/-- Modelled from the spec: the collaborator's encode (`RD.Serialize()`),
8 octets, never fails. -/
def RouteDistinguisher.serialize (rd : RouteDistinguisher) : List Nat :=
  [rd.b0, rd.b1, rd.b2, rd.b3, rd.b4, rd.b5, rd.b6, rd.b7]

/-- `r.RD != nil ? r.RD.Serialize() : make([]byte, 8)` — the shared route-variant
serialization of the distinguisher field (8 zero octets when absent). -/
def rdBytesOrZero : Option RouteDistinguisher → List Nat
  | some rd => rd.serialize
  | none => List.replicate 8 0

-- BGP MUP SAFI architecture and route types (mup.go lines 76-89).
def MUP_ARCH_TYPE_UNDEFINED : Nat := 0

def MUP_ARCH_TYPE_3GPP_5G : Nat := 1

def MUP_ROUTE_TYPE_INTERWORK_SEGMENT_DISCOVERY : Nat := 1

def MUP_ROUTE_TYPE_DIRECT_SEGMENT_DISCOVERY : Nat := 2

def MUP_ROUTE_TYPE_TYPE_1_SESSION_TRANSFORMED : Nat := 3

def MUP_ROUTE_TYPE_TYPE_2_SESSION_TRANSFORMED : Nat := 4

/-- Modelled from the spec: the address-family identifiers (defined elsewhere
in the repository): IPv4. -/
def AFI_IP : Nat := 1

/-- Modelled from the spec: address-family identifier for IPv6. -/
def AFI_IP6 : Nat := 2

/-- Modelled from the spec: the fixed extended-community type tag
`EC_TYPE_MUP` (defined outside src/). -/
def EC_TYPE_MUP : Nat := 12

/-- Modelled from the spec: the one defined extended-community subtype tag
`EC_SUBTYPE_MUP_DIRECT_SEG` (defined outside src/). -/
def EC_SUBTYPE_MUP_DIRECT_SEG : Nat := 0

/-- Error text `fmt.Sprintf("ext comm type is not EC_TYPE_MUP: %d", data[0])`. -/
def extCommTypeMsg (t : Nat) : String := s!"ext comm type is not EC_TYPE_MUP: {t}"

/-- Error text `fmt.Sprintf("unknown mup subtype: %d", subType)`. -/
def unknownSubtypeMsg (st : Nat) : String := s!"unknown mup subtype: {st}"

/-- Error text `fmt.Sprintf("Unknown MUP Architecture and Route type: %d, %d", at, rt)`. -/
def unknownRouteTypeMsg (archT rt : Nat) : String :=
  s!"Unknown MUP Architecture and Route type: {archT}, {rt}"

/-- Error text `fmt.Sprintf("Invalid Prefix length: %d", r.PrefixLength)`. -/
def invalidPrefixLengthMsg (pl : Nat) : String := s!"Invalid Prefix length: {pl}"

/-- Error text `fmt.Sprintf("Invalid Endpoint Address length: %d", r.EndpointAddressLength)`. -/
def invalidEALMsg (eal : Nat) : String := s!"Invalid Endpoint Address length: {eal}"

/-- `MUPExtended`: the MUP extended community record. -/
structure MUPExtended where
  SubType : Nat
  SegmentID2 : Nat
  SegmentID4 : Nat
deriving DecidableEq

/-- `NewMUPExtended`. -/
def NewMUPExtended (sid2 sid4 : Nat) : MUPExtended :=
  ⟨EC_SUBTYPE_MUP_DIRECT_SEG, sid2, sid4⟩

/-- `MUPExtended.Serialize` (mup.go lines 18-25): 8 octets, never fails. -/
def MUPExtended.Serialize (e : MUPExtended) : List Nat :=
  [EC_TYPE_MUP, EC_SUBTYPE_MUP_DIRECT_SEG] ++ putUint16 e.SegmentID2 ++ putUint32 e.SegmentID4

/-- `MUPExtended.String` (mup.go lines 27-29). -/
def MUPExtended.toStr (e : MUPExtended) : String :=
  s!"{e.SegmentID2}:{e.SegmentID4}"

/-- `parseMUPExtended` (mup.go lines 60-72). -/
def parseMUPExtended (data : List Nat) : GoResult MUPExtended :=
  match data[0]? with
  | none => .crash
  | some typ =>
    if typ ≠ EC_TYPE_MUP then
      .err (extCommTypeMsg typ)
    else
      match data[1]? with
      | none => .crash
      | some subType =>
        if subType = EC_SUBTYPE_MUP_DIRECT_SEG then
          match goSlice data 2 4 with
          | none => .crash
          | some s2 =>
            match goUint16 s2 with
            | none => .crash
            | some sid2 =>
              match goSlice data 4 8 with
              | none => .crash
              | some s4 =>
                match goUint32 s4 with
                | none => .crash
                | some sid4 => .ok (NewMUPExtended sid2 sid4)
        else
          .err (unknownSubtypeMsg subType)

/-- `MUPInterworkSegmentDiscoveryRoute` (mup.go lines 216-220). -/
structure MUPInterworkSegmentDiscoveryRoute where
  RD : Option RouteDistinguisher
  PrefixLength : Nat
  Prefix : IPPrefix
deriving DecidableEq

/-- `MUPInterworkSegmentDiscoveryRoute.DecodeFromBytes` (mup.go lines 230-247). -/
def MUPInterworkSegmentDiscoveryRoute.DecodeFromBytes (data : List Nat) :
    GoResult MUPInterworkSegmentDiscoveryRoute :=
  let rd := GetRouteDistinguisher data
  let p := rd.rdLen
  if data.length < p then
    .err "invalid Interwork Segment Discovery Route length"
  else
    match data[p]? with
    | none => .crash
    | some pl =>
      match AddrFromSlice (data.drop (p + 1)) with
      | none => .err "Invalid Prefix"
      | some addr =>
        let pfx := PrefixFrom addr (pl : Int)
        if pfx.bits = -1 then .err "Invalid Prefix bits"
        else .ok ⟨some rd, pl, pfx⟩

/-- `MUPInterworkSegmentDiscoveryRoute.Serialize` (mup.go lines 249-263);
never fails (the collaborator's encode never fails). -/
def MUPInterworkSegmentDiscoveryRoute.serialize (r : MUPInterworkSegmentDiscoveryRoute) :
    List Nat :=
  rdBytesOrZero r.RD ++ [r.PrefixLength] ++ r.Prefix.addr.asSlice

/-- `MUPInterworkSegmentDiscoveryRoute.AFI` (mup.go lines 265-270). -/
def MUPInterworkSegmentDiscoveryRoute.AFI (r : MUPInterworkSegmentDiscoveryRoute) : Nat :=
  if r.Prefix.addr.is6 then AFI_IP6 else AFI_IP

/-- `MUPInterworkSegmentDiscoveryRoute.Len` (mup.go lines 272-275). -/
def MUPInterworkSegmentDiscoveryRoute.len (r : MUPInterworkSegmentDiscoveryRoute) : Nat :=
  9 + r.Prefix.addr.bitLen / 8

/-- `MUPDirectSegmentDiscoveryRoute` (mup.go lines 297-300). -/
structure MUPDirectSegmentDiscoveryRoute where
  RD : Option RouteDistinguisher
  Address : Addr
deriving DecidableEq

/-- `MUPDirectSegmentDiscoveryRoute.DecodeFromBytes` (mup.go lines 309-329). -/
def MUPDirectSegmentDiscoveryRoute.DecodeFromBytes (data : List Nat) :
    GoResult MUPDirectSegmentDiscoveryRoute :=
  let rd := GetRouteDistinguisher data
  let rdLen := rd.rdLen
  if data.length ≠ 12 ∧ data.length ≠ 24 then
    .err "invalid Direct Segment Discovery Route length"
  else if data.length = 12 then
    match goSlice data rdLen (rdLen + 4) with
    | none => .crash
    | some s =>
      match AddrFromSlice s with
      | none => .err "Invalid Address"
      | some a => .ok ⟨some rd, a⟩
  else
    match goSlice data rdLen (rdLen + 16) with
    | none => .crash
    | some s =>
      match AddrFromSlice s with
      | none => .err "Invalid Address"
      | some a => .ok ⟨some rd, a⟩

/-- `MUPDirectSegmentDiscoveryRoute.Serialize` (mup.go lines 331-344). -/
def MUPDirectSegmentDiscoveryRoute.serialize (r : MUPDirectSegmentDiscoveryRoute) : List Nat :=
  rdBytesOrZero r.RD ++ r.Address.asSlice

/-- `MUPDirectSegmentDiscoveryRoute.AFI` (mup.go lines 346-351). -/
def MUPDirectSegmentDiscoveryRoute.AFI (r : MUPDirectSegmentDiscoveryRoute) : Nat :=
  if r.Address.is6 then AFI_IP6 else AFI_IP

/-- `MUPDirectSegmentDiscoveryRoute.Len` (mup.go lines 353-356). -/
def MUPDirectSegmentDiscoveryRoute.len (r : MUPDirectSegmentDiscoveryRoute) : Nat :=
  8 + r.Address.bitLen / 8

/-- `MUPType1SessionTransformedRoute` (mup.go lines 378-386). -/
structure MUPType1SessionTransformedRoute where
  RD : Option RouteDistinguisher
  PrefixLength : Nat
  Prefix : Addr
  TEID : Nat
  QFI : Nat
  EndpointAddressLength : Nat
  EndpointAddress : Addr
deriving DecidableEq

/-- `MUPType1SessionTransformedRoute.DecodeFromBytes` (mup.go lines 400-434).
The cursor `p` starts at the distinguisher's reported length (8). -/
def MUPType1SessionTransformedRoute.DecodeFromBytes (data : List Nat) :
    GoResult MUPType1SessionTransformedRoute :=
  let rd := GetRouteDistinguisher data
  let p := rd.rdLen
  if data.length < p then
    .err "invalid 3GPP 5G specific Type 1 Session Transformed Route length"
  else
    match data[p]? with
    | none => .crash
    | some pl =>
      if pl = 32 ∨ pl = 128 then
        match goSlice data (p + 1) (p + 1 + pl / 8) with
        | none => .crash
        | some s =>
          match AddrFromSlice s with
          | none => .err "Invalid Prefix"
          | some pfx =>
            let q := p + 1 + pl / 8
            match goSlice data q (q + 4) with
            | none => .crash
            | some ts =>
              match goUint32 ts with
              | none => .crash
              | some teid =>
                match data[q + 4]? with
                | none => .crash
                | some qfi =>
                  match data[q + 5]? with
                  | none => .crash
                  | some eal =>
                    if eal = 32 ∨ eal = 128 then
                      match goSlice data (q + 6) (q + 6 + eal / 8) with
                      | none => .crash
                      | some es =>
                        match AddrFromSlice es with
                        | none => .err "Invalid Endpoint Address"
                        | some ea => .ok ⟨some rd, pl, pfx, teid, qfi, eal, ea⟩
                    else
                      .err (invalidEALMsg eal)
      else
        .err (invalidPrefixLengthMsg pl)

/-- `MUPType1SessionTransformedRoute.Serialize` (mup.go lines 436-456). -/
def MUPType1SessionTransformedRoute.serialize (r : MUPType1SessionTransformedRoute) :
    List Nat :=
  rdBytesOrZero r.RD ++ [r.PrefixLength] ++ r.Prefix.asSlice ++ putUint32 r.TEID ++
    [r.QFI] ++ [r.EndpointAddressLength] ++ r.EndpointAddress.asSlice

/-- `MUPType1SessionTransformedRoute.AFI` (mup.go lines 458-463). -/
def MUPType1SessionTransformedRoute.AFI (r : MUPType1SessionTransformedRoute) : Nat :=
  if r.Prefix.is6 then AFI_IP6 else AFI_IP

/-- `MUPType1SessionTransformedRoute.Len` (mup.go lines 465-469). -/
def MUPType1SessionTransformedRoute.len (r : MUPType1SessionTransformedRoute) : Nat :=
  15 + r.PrefixLength / 8 + r.EndpointAddressLength / 8

/-- `MUPType2SessionTransformedRoute` (mup.go lines 497-502). -/
structure MUPType2SessionTransformedRoute where
  RD : Option RouteDistinguisher
  EndpointAddressLength : Nat
  EndpointAddress : Addr
  TEID : Nat
deriving DecidableEq

/-- `MUPType2SessionTransformedRoute.DecodeFromBytes` (mup.go lines 513-544).
The TEID octet count is `EndpointAddressLength/8 - 4` (or `- 16`); the TEID is
then read with a 4-octet big-endian read over a slice of that many octets. -/
def MUPType2SessionTransformedRoute.DecodeFromBytes (data : List Nat) :
    GoResult MUPType2SessionTransformedRoute :=
  let rd := GetRouteDistinguisher data
  let p := rd.rdLen
  if data.length < p then
    .err "invalid 3GPP 5G specific Type 2 Session Transformed Route length"
  else
    match data[p]? with
    | none => .crash
    | some eal =>
      if 32 ≤ eal ∧ eal ≤ 64 then
        match goSlice data (p + 1) (p + 1 + 4) with
        | none => .crash
        | some s =>
          match AddrFromSlice s with
          | none => .err "Invalid Endpoint Address"
          | some ea =>
            let teidLen := eal / 8 - 4
            match goSlice data (p + 5) (p + 5 + teidLen) with
            | none => .crash
            | some ts =>
              match goUint32 ts with
              | none => .crash
              | some teid => .ok ⟨some rd, eal, ea, teid⟩
      else if 128 ≤ eal ∧ eal ≤ 160 then
        match goSlice data (p + 1) (p + 1 + 16) with
        | none => .crash
        | some s =>
          match AddrFromSlice s with
          | none => .err "Invalid Endpoint Address"
          | some ea =>
            let teidLen := eal / 8 - 16
            match goSlice data (p + 17) (p + 17 + teidLen) with
            | none => .crash
            | some ts =>
              match goUint32 ts with
              | none => .crash
              | some teid => .ok ⟨some rd, eal, ea, teid⟩
      else
        .err (invalidEALMsg eal)

/-- `MUPType2SessionTransformedRoute.Serialize` (mup.go lines 546-563). -/
def MUPType2SessionTransformedRoute.serialize (r : MUPType2SessionTransformedRoute) :
    List Nat :=
  rdBytesOrZero r.RD ++ [r.EndpointAddressLength] ++ r.EndpointAddress.asSlice ++
    putUint32 r.TEID

/-- `MUPType2SessionTransformedRoute.AFI` (mup.go lines 565-570). -/
def MUPType2SessionTransformedRoute.AFI (r : MUPType2SessionTransformedRoute) : Nat :=
  if r.EndpointAddress.is6 then AFI_IP6 else AFI_IP

/-- `MUPType2SessionTransformedRoute.Len` (mup.go lines 572-577). -/
def MUPType2SessionTransformedRoute.len (r : MUPType2SessionTransformedRoute) : Nat :=
  9 + r.EndpointAddressLength / 8

/-- The closed set of values behind `MUPRouteTypeInterface`: exactly the four
concrete route types that `getMUPRouteType` can produce. -/
inductive MUPRouteTypeData where
  | isd (r : MUPInterworkSegmentDiscoveryRoute)
  | dsd (r : MUPDirectSegmentDiscoveryRoute)
  | t1st (r : MUPType1SessionTransformedRoute)
  | t2st (r : MUPType2SessionTransformedRoute)
deriving DecidableEq

/-- The route-type tag selected by the registry (which concrete struct
`getMUPRouteType` allocates). -/
inductive MUPRouteTag where
  | isd
  | dsd
  | t1st
  | t2st
deriving DecidableEq

/-- `getMUPRouteType` (mup.go lines 101-121): the registry. -/
def getMUPRouteType (archT rt : Nat) : Except String MUPRouteTag :=
  if rt = MUP_ROUTE_TYPE_INTERWORK_SEGMENT_DISCOVERY then
    if archT = MUP_ARCH_TYPE_3GPP_5G then .ok .isd
    else .error (unknownRouteTypeMsg archT rt)
  else if rt = MUP_ROUTE_TYPE_DIRECT_SEGMENT_DISCOVERY then
    if archT = MUP_ARCH_TYPE_3GPP_5G then .ok .dsd
    else .error (unknownRouteTypeMsg archT rt)
  else if rt = MUP_ROUTE_TYPE_TYPE_1_SESSION_TRANSFORMED then
    if archT = MUP_ARCH_TYPE_3GPP_5G then .ok .t1st
    else .error (unknownRouteTypeMsg archT rt)
  else if rt = MUP_ROUTE_TYPE_TYPE_2_SESSION_TRANSFORMED then
    if archT = MUP_ARCH_TYPE_3GPP_5G then .ok .t2st
    else .error (unknownRouteTypeMsg archT rt)
  else
    .error (unknownRouteTypeMsg archT rt)

/-- `n.RouteTypeData.DecodeFromBytes(...)` after the registry has chosen the
concrete struct: dynamic dispatch over the four variants. -/
def decodeRouteBody (tag : MUPRouteTag) (data : List Nat) : GoResult MUPRouteTypeData :=
  match tag with
  | .isd =>
    match MUPInterworkSegmentDiscoveryRoute.DecodeFromBytes data with
    | .ok r => .ok (.isd r)
    | .err e => .err e
    | .crash => .crash
  | .dsd =>
    match MUPDirectSegmentDiscoveryRoute.DecodeFromBytes data with
    | .ok r => .ok (.dsd r)
    | .err e => .err e
    | .crash => .crash
  | .t1st =>
    match MUPType1SessionTransformedRoute.DecodeFromBytes data with
    | .ok r => .ok (.t1st r)
    | .err e => .err e
    | .crash => .crash
  | .t2st =>
    match MUPType2SessionTransformedRoute.DecodeFromBytes data with
    | .ok r => .ok (.t2st r)
    | .err e => .err e
    | .crash => .crash

/-- Dynamic dispatch of `Serialize` over the four variants. -/
def MUPRouteTypeData.serialize : MUPRouteTypeData → List Nat
  | .isd r => r.serialize
  | .dsd r => r.serialize
  | .t1st r => r.serialize
  | .t2st r => r.serialize

/-- Dynamic dispatch of `Len` over the four variants. -/
def MUPRouteTypeData.len : MUPRouteTypeData → Nat
  | .isd r => r.len
  | .dsd r => r.len
  | .t1st r => r.len
  | .t2st r => r.len

/-- Dynamic dispatch of `AFI` over the four variants. -/
def MUPRouteTypeData.afi : MUPRouteTypeData → Nat
  | .isd r => r.AFI
  | .dsd r => r.AFI
  | .t1st r => r.AFI
  | .t2st r => r.AFI

/-- The route-type number the `NewMUP*Route` wrappers pair each variant with
(mup.go lines 222-228, 302-307, 388-398, 504-511). -/
def MUPRouteTypeData.routeType : MUPRouteTypeData → Nat
  | .isd _ => MUP_ROUTE_TYPE_INTERWORK_SEGMENT_DISCOVERY
  | .dsd _ => MUP_ROUTE_TYPE_DIRECT_SEGMENT_DISCOVERY
  | .t1st _ => MUP_ROUTE_TYPE_TYPE_1_SESSION_TRANSFORMED
  | .t2st _ => MUP_ROUTE_TYPE_TYPE_2_SESSION_TRANSFORMED

/-- `MUPNLRI` (mup.go lines 123-129): the NLRI envelope.  `RouteTypeData` is
`none` when the interface field is nil. -/
structure MUPNLRI where
  ArchitectureType : Nat
  RouteType : Nat
  Length : Nat
  RouteTypeData : Option MUPRouteTypeData
deriving DecidableEq

/-- `MUPNLRI.DecodeFromBytes` (mup.go lines 131-148). -/
def MUPNLRI.DecodeFromBytes (data : List Nat) : GoResult MUPNLRI :=
  if data.length < 4 then
    .err "Not all MUPNLRI bytes available"
  else
    let archT := data.getD 0 0
    let rt := data.getD 1 0 * 256 + data.getD 2 0
    let length := data.getD 3 0
    let rest := data.drop 4
    if rest.length < length then
      .err "Not all MUPNLRI Route type bytes available"
    else
      match getMUPRouteType archT rt with
      | .error e => .err e
      | .ok tag =>
        match decodeRouteBody tag (rest.take length) with
        | .ok d => .ok ⟨archT, rt, length, some d⟩
        | .err e => .err e
        | .crash => .crash

/-- `MUPNLRI.Serialize` (mup.go lines 150-160): writes the stored
`ArchitectureType`, `RouteType` and `Length` fields, then the body's own
encoding; a nil `RouteTypeData` makes the method call panic. -/
def MUPNLRI.Serialize (n : MUPNLRI) : GoResult (List Nat) :=
  match n.RouteTypeData with
  | none => .crash
  | some d =>
    .ok ([n.ArchitectureType] ++ putUint16 n.RouteType ++ [n.Length] ++ d.serialize)

/-- `MUPNLRI.Len` (mup.go lines 170-172). -/
def MUPNLRI.nlriLen (n : MUPNLRI) : Nat := n.Length + 4

/-- `NewMUPNLRI` (mup.go lines 201-212): the stored length is `uint8(data.Len())`. -/
def NewMUPNLRI (archT rt : Nat) (data : Option MUPRouteTypeData) : MUPNLRI :=
  let l : Nat :=
    match data with
    | some d => d.len % 256
    | none => 0
  ⟨archT, rt, l, data⟩

/-- Validly-constructed route-variant values: exactly the field relationships
the `NewMUP*Route` constructors establish (mup.go lines 222-228, 302-307,
388-398, 504-511), with a present (8-octet) distinguisher and a non-zero
address, and field values in their Go types' ranges. -/
def MUPRouteTypeData.wf : MUPRouteTypeData → Prop
  | .isd r => r.RD.isSome ∧ r.Prefix.addr ≠ .zero ∧ r.Prefix.bits = (r.PrefixLength : Int) ∧
      r.PrefixLength ≤ r.Prefix.addr.bitLen
  | .dsd r => r.RD.isSome ∧ r.Address ≠ .zero
  | .t1st r => r.RD.isSome ∧ r.Prefix ≠ .zero ∧ r.EndpointAddress ≠ .zero ∧
      r.PrefixLength = r.Prefix.bitLen ∧ r.EndpointAddressLength = r.EndpointAddress.bitLen ∧
      r.TEID < 4294967296
  | .t2st r => r.RD.isSome ∧ r.EndpointAddress ≠ .zero ∧
      r.EndpointAddressLength = r.EndpointAddress.bitLen + 32 ∧ r.TEID < 4294967296

/-! ## Helper lemmas -/

lemma list_len4 (l : List Nat) (h : l.length = 4) :
    ∃ a0 a1 a2 a3, l = [a0, a1, a2, a3] := by
  rcases l with _ | ⟨a0, l⟩
  · simp at h
  rcases l with _ | ⟨a1, l⟩
  · simp at h
  rcases l with _ | ⟨a2, l⟩
  · simp at h
  rcases l with _ | ⟨a3, l⟩
  · simp at h
  rcases l with _ | ⟨a4, l⟩
  · exact ⟨a0, a1, a2, a3, rfl⟩
  · simp at h

lemma uint32_of_putUint32 (t : Nat) (ht : t < 4294967296) :
    ((t / 16777216 % 256 * 256 + t / 65536 % 256) * 256 + t / 256 % 256) * 256 + t % 256
      = t := by
  omega

/-! ## Claim C8 -/

/-- Claim C8: `MUPExtended.Serialize` always returns exactly 8 octets: the fixed
type tag, the fixed subtype tag, the 16-bit segment identifier big-endian and
the 32-bit segment identifier big-endian, never failing; in particular
segment-id-16 = 100 and segment-id-32 = 200000 serialize to
`[type][subtype][0,100][0,3,13,64]` and render as `"100:200000"`. -/
theorem c8_extcomm_encode (e : MUPExtended) :
    e.Serialize.length = 8 ∧
    e.Serialize = [EC_TYPE_MUP, EC_SUBTYPE_MUP_DIRECT_SEG,
      e.SegmentID2 / 256 % 256, e.SegmentID2 % 256,
      e.SegmentID4 / 16777216 % 256, e.SegmentID4 / 65536 % 256,
      e.SegmentID4 / 256 % 256, e.SegmentID4 % 256] ∧
    (NewMUPExtended 100 200000).Serialize =
      [EC_TYPE_MUP, EC_SUBTYPE_MUP_DIRECT_SEG, 0, 100, 0, 3, 13, 64] ∧
    (NewMUPExtended 100 200000).toStr = "100:200000" :=
  ⟨rfl, rfl, by decide, rfl⟩

/-! ## Claim C10 -/

/-- Claim C10: serializing any route variant whose distinguisher is absent (nil)
succeeds and emits exactly 8 zero octets in place of the distinguisher, followed
by the variant's normal field encoding (the variant serializers are total). -/
theorem c10_nil_rd_serialize (pl teid qfi eal : Nat) (pfx : IPPrefix) (a pa ea : Addr) :
    (MUPInterworkSegmentDiscoveryRoute.serialize ⟨none, pl, pfx⟩ =
      List.replicate 8 0 ++ [pl] ++ pfx.addr.asSlice) ∧
    (MUPDirectSegmentDiscoveryRoute.serialize ⟨none, a⟩ =
      List.replicate 8 0 ++ a.asSlice) ∧
    (MUPType1SessionTransformedRoute.serialize ⟨none, pl, pa, teid, qfi, eal, ea⟩ =
      List.replicate 8 0 ++ [pl] ++ pa.asSlice ++ putUint32 teid ++
        [qfi] ++ [eal] ++ ea.asSlice) ∧
    (MUPType2SessionTransformedRoute.serialize ⟨none, eal, ea, teid⟩ =
      List.replicate 8 0 ++ [eal] ++ ea.asSlice ++ putUint32 teid) :=
  ⟨rfl, rfl, rfl, rfl⟩

/-! ## Claim C1 -/

/-- Claim C1 (counterexample): decoding the Type-2 body
`distinguisher(8 zero octets) ++ [48] ++ [10,0,0,1] ++ [0,0,0,42]` does not
succeed: the decoder derives a 2-octet TEID slice and then panics performing a
4-octet big-endian read on it. -/
theorem c1_counterexample :
    MUPType2SessionTransformedRoute.DecodeFromBytes
      ([0, 0, 0, 0, 0, 0, 0, 0] ++ [48] ++ [10, 0, 0, 1] ++ [0, 0, 0, 42]) =
      .crash := by
  decide

/-- Claim C1 (amended): for declared endpoint-address length 48 the decoder
derives a 2-octet TEID slice (and for 136 a 3-octet one) but then panics
reading a 4-octet big-endian integer from it; in particular, for every 8-octet
distinguisher, the body `d ++ [48] ++ [10,0,0,1] ++ [0,0,0,42]` makes decode
panic instead of round-tripping. -/
theorem c1_amended (rd : RouteDistinguisher)
    (t0 t1 t2 t3 u0 u1 u2 : Nat)
    (x0 x1 x2 x3 x4 x5 x6 x7 x8 x9 x10 x11 x12 x13 x14 x15 : Nat) :
    (MUPType2SessionTransformedRoute.DecodeFromBytes
      (rd.serialize ++ [48] ++ [10, 0, 0, 1] ++ [t0, t1, t2, t3]) = .crash) ∧
    (MUPType2SessionTransformedRoute.DecodeFromBytes
      (rd.serialize ++ [136] ++
        [x0, x1, x2, x3, x4, x5, x6, x7, x8, x9, x10, x11, x12, x13, x14, x15] ++
        [u0, u1, u2]) = .crash) := by
  obtain ⟨b0, b1, b2, b3, b4, b5, b6, b7⟩ := rd
  constructor <;>
    simp [MUPType2SessionTransformedRoute.DecodeFromBytes, RouteDistinguisher.serialize,
      GetRouteDistinguisher, RouteDistinguisher.rdLen, goSlice, goUint32, AddrFromSlice]

/-! ## Claim C2 -/

/-- Claim C2 (counterexample): two envelopes holding the same body but different
stored length fields encode to different byte strings, and the emitted length
octet is the stored field (13), not the serialized body length (12): the length
octet is not recomputed from the body. -/
theorem c2_counterexample :
    (MUPNLRI.Serialize ⟨1, 2, 12, some (.dsd ⟨some ⟨1, 2, 3, 4, 5, 6, 7, 8⟩, .v4 10 0 0 1⟩)⟩ ≠
      MUPNLRI.Serialize ⟨1, 2, 13, some (.dsd ⟨some ⟨1, 2, 3, 4, 5, 6, 7, 8⟩, .v4 10 0 0 1⟩)⟩) ∧
    MUPNLRI.Serialize ⟨1, 2, 13, some (.dsd ⟨some ⟨1, 2, 3, 4, 5, 6, 7, 8⟩, .v4 10 0 0 1⟩)⟩ =
      .ok ([1, 0, 2, 13] ++ [1, 2, 3, 4, 5, 6, 7, 8] ++ [10, 0, 0, 1]) ∧
    ((MUPRouteTypeData.dsd ⟨some ⟨1, 2, 3, 4, 5, 6, 7, 8⟩, .v4 10 0 0 1⟩).serialize).length = 12 := by
  refine ⟨by decide, by decide, by decide⟩

/-- Claim C2 (amended): `MUPNLRI.Serialize` writes the 4-octet header with the
length octet taken from the envelope's stored `Length` field (so envelopes
differing only in that field encode differently); the stored field equals the
body's own `Len()` (mod 256) only when the envelope was built by `NewMUPNLRI`. -/
theorem c2_amended (n : MUPNLRI) (d : MUPRouteTypeData)
    (hd : n.RouteTypeData = some d) :
    n.Serialize =
      .ok ([n.ArchitectureType] ++ putUint16 n.RouteType ++ [n.Length] ++ d.serialize) ∧
    ∀ archT rt, (NewMUPNLRI archT rt (some d)).Length = d.len % 256 := by
  refine ⟨?_, fun _ _ => rfl⟩
  unfold MUPNLRI.Serialize
  rw [hd]

/-- Witness for C2 (amended) at a concrete envelope. -/
theorem c2_witness :
    MUPNLRI.Serialize ⟨1, 2, 99, some (.dsd ⟨none, .v4 10 0 0 1⟩)⟩ =
      .ok ([1] ++ putUint16 2 ++ [99] ++
        (MUPRouteTypeData.dsd ⟨none, .v4 10 0 0 1⟩).serialize) ∧
    (NewMUPNLRI 1 2 (some (.dsd ⟨none, .v4 10 0 0 1⟩))).Length =
      (MUPRouteTypeData.dsd ⟨none, .v4 10 0 0 1⟩).len % 256 :=
  ⟨(c2_amended ⟨1, 2, 99, some (.dsd ⟨none, .v4 10 0 0 1⟩)⟩ _ rfl).1,
   (c2_amended ⟨1, 2, 99, some (.dsd ⟨none, .v4 10 0 0 1⟩)⟩ _ rfl).2 1 2⟩

/-! ## Claim C5 -/

/-- Claim C5: the registry `getMUPRouteType` succeeds for exactly the four pairs
(3GPP-5G architecture, one of the four defined route types) and fails for every
other pair with an error naming both the architecture type and the route type. -/
theorem c5_registry (archT rt : Nat) :
    ((∃ tag, getMUPRouteType archT rt = .ok tag) ↔
      archT = MUP_ARCH_TYPE_3GPP_5G ∧
        (rt = MUP_ROUTE_TYPE_INTERWORK_SEGMENT_DISCOVERY ∨
         rt = MUP_ROUTE_TYPE_DIRECT_SEGMENT_DISCOVERY ∨
         rt = MUP_ROUTE_TYPE_TYPE_1_SESSION_TRANSFORMED ∨
         rt = MUP_ROUTE_TYPE_TYPE_2_SESSION_TRANSFORMED)) ∧
    (¬(archT = MUP_ARCH_TYPE_3GPP_5G ∧
        (rt = MUP_ROUTE_TYPE_INTERWORK_SEGMENT_DISCOVERY ∨
         rt = MUP_ROUTE_TYPE_DIRECT_SEGMENT_DISCOVERY ∨
         rt = MUP_ROUTE_TYPE_TYPE_1_SESSION_TRANSFORMED ∨
         rt = MUP_ROUTE_TYPE_TYPE_2_SESSION_TRANSFORMED)) →
      getMUPRouteType archT rt = .error (unknownRouteTypeMsg archT rt)) := by
  unfold getMUPRouteType MUP_ARCH_TYPE_3GPP_5G MUP_ROUTE_TYPE_INTERWORK_SEGMENT_DISCOVERY
    MUP_ROUTE_TYPE_DIRECT_SEGMENT_DISCOVERY MUP_ROUTE_TYPE_TYPE_1_SESSION_TRANSFORMED
    MUP_ROUTE_TYPE_TYPE_2_SESSION_TRANSFORMED
  constructor
  · constructor
    · rintro ⟨tag, h⟩
      split_ifs at h <;> simp_all
    · rintro ⟨rfl, h⟩
      rcases h with rfl | rfl | rfl | rfl <;> exact ⟨_, rfl⟩
  · intro h
    split_ifs with h1 h2 h3 h4 h5 h6 h7 h8 <;> simp_all

/-- Witness for C5: a succeeding pair and a failing pair, via `c5_registry`. -/
theorem c5_witness :
    (∃ tag, getMUPRouteType 1 4 = .ok tag) ∧
    getMUPRouteType 0 4 = .error (unknownRouteTypeMsg 0 4) :=
  ⟨(c5_registry 1 4).1.mpr ⟨rfl, by decide⟩,
   (c5_registry 0 4).2 (by decide)⟩

lemma list_len16 (l : List Nat) (h : l.length = 16) :
    ∃ a0 a1 a2 a3 a4 a5 a6 a7 a8 a9 a10 a11 a12 a13 a14 a15,
      l = [a0, a1, a2, a3, a4, a5, a6, a7, a8, a9, a10, a11, a12, a13, a14, a15] := by
  rcases l with _ | ⟨a0, l⟩
  · simp at h
  rcases l with _ | ⟨a1, l⟩
  · simp at h
  rcases l with _ | ⟨a2, l⟩
  · simp at h
  rcases l with _ | ⟨a3, l⟩
  · simp at h
  rcases l with _ | ⟨a4, l⟩
  · simp at h
  rcases l with _ | ⟨a5, l⟩
  · simp at h
  rcases l with _ | ⟨a6, l⟩
  · simp at h
  rcases l with _ | ⟨a7, l⟩
  · simp at h
  rcases l with _ | ⟨a8, l⟩
  · simp at h
  rcases l with _ | ⟨a9, l⟩
  · simp at h
  rcases l with _ | ⟨a10, l⟩
  · simp at h
  rcases l with _ | ⟨a11, l⟩
  · simp at h
  rcases l with _ | ⟨a12, l⟩
  · simp at h
  rcases l with _ | ⟨a13, l⟩
  · simp at h
  rcases l with _ | ⟨a14, l⟩
  · simp at h
  rcases l with _ | ⟨a15, l⟩
  · simp at h
  rcases l with _ | ⟨a16, l⟩
  · exact ⟨a0, a1, a2, a3, a4, a5, a6, a7, a8, a9, a10, a11, a12, a13, a14, a15, rfl⟩
  · simp at h

/-! ## Claim C9 -/

/-- Claim C9: on any input of at least 8 octets, `parseMUPExtended` fails
exactly when octet 0 differs from the type tag (error naming it) or octet 1
differs from the one defined subtype (error naming the offending value); when
both match it returns the record with the 16-bit segment identifier from
octets 2-3 big-endian and the 32-bit identifier from octets 4-7 big-endian. -/
theorem c9_parse_extcomm (d0 d1 d2 d3 d4 d5 d6 d7 : Nat) (rest : List Nat) :
    (d0 ≠ EC_TYPE_MUP →
      parseMUPExtended (d0 :: d1 :: d2 :: d3 :: d4 :: d5 :: d6 :: d7 :: rest) =
        .err (extCommTypeMsg d0)) ∧
    (d0 = EC_TYPE_MUP → d1 ≠ EC_SUBTYPE_MUP_DIRECT_SEG →
      parseMUPExtended (d0 :: d1 :: d2 :: d3 :: d4 :: d5 :: d6 :: d7 :: rest) =
        .err (unknownSubtypeMsg d1)) ∧
    (d0 = EC_TYPE_MUP → d1 = EC_SUBTYPE_MUP_DIRECT_SEG →
      parseMUPExtended (d0 :: d1 :: d2 :: d3 :: d4 :: d5 :: d6 :: d7 :: rest) =
        .ok ⟨EC_SUBTYPE_MUP_DIRECT_SEG, d2 * 256 + d3,
          ((d4 * 256 + d5) * 256 + d6) * 256 + d7⟩) := by
  refine ⟨fun h => ?_, fun h0 h1 => ?_, fun h0 h1 => ?_⟩
  · simp [parseMUPExtended, h]
  · subst h0
    simp [parseMUPExtended, h1]
  · subst h0; subst h1
    simp [parseMUPExtended, goSlice, goUint16, goUint32, NewMUPExtended,
      show (4:Nat) ≤ rest.length + 8 from by omega,
      show (8:Nat) ≤ rest.length + 8 from by omega]

/-- Witness for C9: the three branches at concrete inputs, via `c9_parse_extcomm`. -/
theorem c9_witness :
    parseMUPExtended [7, 0, 0, 100, 0, 3, 13, 64] = .err (extCommTypeMsg 7) ∧
    parseMUPExtended [12, 5, 0, 100, 0, 3, 13, 64] = .err (unknownSubtypeMsg 5) ∧
    parseMUPExtended [12, 0, 0, 100, 0, 3, 13, 64] = .ok ⟨0, 100, 200000⟩ := by
  refine ⟨(c9_parse_extcomm 7 0 0 100 0 3 13 64 []).1 (by decide),
    (c9_parse_extcomm 12 5 0 100 0 3 13 64 []).2.1 rfl (by decide), ?_⟩
  have h := (c9_parse_extcomm 12 0 0 100 0 3 13 64 []).2.2 rfl rfl
  simpa using h

/-! ## Claim C7 -/

/-- Claim C7: Direct Segment Discovery decode succeeds only on bodies of
exactly 12 or 24 octets (anything else is a MalformedAttribute error); a
12-octet body yields an IPv4 address family and a 24-octet body IPv6. -/
theorem c7_dsd_length (data : List Nat) :
    ((data.length ≠ 12 ∧ data.length ≠ 24) →
      MUPDirectSegmentDiscoveryRoute.DecodeFromBytes data =
        .err "invalid Direct Segment Discovery Route length") ∧
    (data.length = 12 → ∃ r, MUPDirectSegmentDiscoveryRoute.DecodeFromBytes data = .ok r ∧
      r.AFI = AFI_IP ∧ r.Address.is6 = false) ∧
    (data.length = 24 → ∃ r, MUPDirectSegmentDiscoveryRoute.DecodeFromBytes data = .ok r ∧
      r.AFI = AFI_IP6 ∧ r.Address.is6 = true) := by
  refine ⟨fun h => ?_, fun h => ?_, fun h => ?_⟩
  · simp [MUPDirectSegmentDiscoveryRoute.DecodeFromBytes, h.1, h.2]
  · obtain ⟨a0, a1, a2, a3, heq⟩ := list_len4 ((data.drop 8).take 4) (by simp [h])
    refine ⟨⟨some (GetRouteDistinguisher data), .v4 a0 a1 a2 a3⟩, ?_, rfl, rfl⟩
    simp [MUPDirectSegmentDiscoveryRoute.DecodeFromBytes, h, goSlice,
      RouteDistinguisher.rdLen, heq, AddrFromSlice]
  · obtain ⟨a0, a1, a2, a3, a4, a5, a6, a7, a8, a9, a10, a11, a12, a13, a14, a15, heq⟩ :=
      list_len16 ((data.drop 8).take 16) (by simp [h])
    refine ⟨⟨some (GetRouteDistinguisher data),
      .v6 a0 a1 a2 a3 a4 a5 a6 a7 a8 a9 a10 a11 a12 a13 a14 a15⟩, ?_, rfl, rfl⟩
    simp [MUPDirectSegmentDiscoveryRoute.DecodeFromBytes, h, goSlice,
      RouteDistinguisher.rdLen, heq, AddrFromSlice]

/-- Witness for C7 at concrete bodies, via `c7_dsd_length`. -/
theorem c7_witness :
    MUPDirectSegmentDiscoveryRoute.DecodeFromBytes [1, 2, 3] =
      .err "invalid Direct Segment Discovery Route length" ∧
    (∃ r, MUPDirectSegmentDiscoveryRoute.DecodeFromBytes
      [0, 0, 0, 0, 0, 0, 0, 0, 10, 0, 0, 1] = .ok r ∧ r.AFI = AFI_IP ∧
      r.Address.is6 = false) := by
  exact ⟨(c7_dsd_length [1, 2, 3]).1 (by decide),
    (c7_dsd_length [0, 0, 0, 0, 0, 0, 0, 0, 10, 0, 0, 1]).2.1 (by decide)⟩

/-! ## Claim C6 -/

/-- Claim C6: Type-1 Session Transformed decode rejects any declared prefix
bit-length other than exactly 32 or 128 and any declared endpoint-address
bit-length other than exactly 32 or 128 with a MalformedAttribute error; when
both are valid, the prefix address, the 4-octet big-endian TEID, the QFI octet
and the endpoint address are read in that order after the distinguisher. -/
theorem c6_t1st_validation :
    (∀ (data : List Nat) (pl : Nat), data[8]? = some pl → pl ≠ 32 → pl ≠ 128 →
      MUPType1SessionTransformedRoute.DecodeFromBytes data =
        .err (invalidPrefixLengthMsg pl)) ∧
    (∀ (rd : RouteDistinguisher) (pre : Addr) (t0 t1 t2 t3 qfi eal : Nat),
      pre ≠ Addr.zero → eal ≠ 32 → eal ≠ 128 →
      MUPType1SessionTransformedRoute.DecodeFromBytes
        (rd.serialize ++ [pre.bitLen] ++ pre.asSlice ++ [t0, t1, t2, t3, qfi, eal]) =
        .err (invalidEALMsg eal)) ∧
    (∀ (rd : RouteDistinguisher) (pre ea : Addr) (t0 t1 t2 t3 qfi : Nat),
      pre ≠ Addr.zero → ea ≠ Addr.zero →
      MUPType1SessionTransformedRoute.DecodeFromBytes
        (rd.serialize ++ [pre.bitLen] ++ pre.asSlice ++ [t0, t1, t2, t3, qfi, ea.bitLen] ++
          ea.asSlice) =
        .ok ⟨some rd, pre.bitLen, pre, ((t0 * 256 + t1) * 256 + t2) * 256 + t3, qfi,
          ea.bitLen, ea⟩) := by
  refine ⟨fun data pl h h32 h128 => ?_, fun rd pre t0 t1 t2 t3 qfi eal hpre h32 h128 => ?_,
    fun rd pre ea t0 t1 t2 t3 qfi hpre hea => ?_⟩
  · have hlen : 8 < data.length := (List.getElem?_eq_some_iff.1 h).1
    simp [MUPType1SessionTransformedRoute.DecodeFromBytes, RouteDistinguisher.rdLen,
      h, h32, h128, show ¬(data.length < 8) from by omega]
  · obtain ⟨b0, b1, b2, b3, b4, b5, b6, b7⟩ := rd
    cases pre with
    | zero => exact absurd rfl hpre
    | v4 x0 x1 x2 x3 =>
      simp [MUPType1SessionTransformedRoute.DecodeFromBytes, RouteDistinguisher.serialize,
        GetRouteDistinguisher, RouteDistinguisher.rdLen, Addr.bitLen, Addr.asSlice,
        goSlice, goUint32, AddrFromSlice, h32, h128]
    | v6 x0 x1 x2 x3 x4 x5 x6 x7 x8 x9 x10 x11 x12 x13 x14 x15 =>
      simp [MUPType1SessionTransformedRoute.DecodeFromBytes, RouteDistinguisher.serialize,
        GetRouteDistinguisher, RouteDistinguisher.rdLen, Addr.bitLen, Addr.asSlice,
        goSlice, goUint32, AddrFromSlice, h32, h128]
  · obtain ⟨b0, b1, b2, b3, b4, b5, b6, b7⟩ := rd
    cases pre with
    | zero => exact absurd rfl hpre
    | v4 x0 x1 x2 x3 =>
      cases ea with
      | zero => exact absurd rfl hea
      | v4 y0 y1 y2 y3 =>
        simp [MUPType1SessionTransformedRoute.DecodeFromBytes, RouteDistinguisher.serialize,
          GetRouteDistinguisher, RouteDistinguisher.rdLen, Addr.bitLen, Addr.asSlice,
          goSlice, goUint32, AddrFromSlice]
      | v6 y0 y1 y2 y3 y4 y5 y6 y7 y8 y9 y10 y11 y12 y13 y14 y15 =>
        simp [MUPType1SessionTransformedRoute.DecodeFromBytes, RouteDistinguisher.serialize,
          GetRouteDistinguisher, RouteDistinguisher.rdLen, Addr.bitLen, Addr.asSlice,
          goSlice, goUint32, AddrFromSlice]
    | v6 x0 x1 x2 x3 x4 x5 x6 x7 x8 x9 x10 x11 x12 x13 x14 x15 =>
      cases ea with
      | zero => exact absurd rfl hea
      | v4 y0 y1 y2 y3 =>
        simp [MUPType1SessionTransformedRoute.DecodeFromBytes, RouteDistinguisher.serialize,
          GetRouteDistinguisher, RouteDistinguisher.rdLen, Addr.bitLen, Addr.asSlice,
          goSlice, goUint32, AddrFromSlice]
      | v6 y0 y1 y2 y3 y4 y5 y6 y7 y8 y9 y10 y11 y12 y13 y14 y15 =>
        simp [MUPType1SessionTransformedRoute.DecodeFromBytes, RouteDistinguisher.serialize,
          GetRouteDistinguisher, RouteDistinguisher.rdLen, Addr.bitLen, Addr.asSlice,
          goSlice, goUint32, AddrFromSlice]

/-- Witness for C6: the three branches at concrete inputs, via `c6_t1st_validation`. -/
theorem c6_witness :
    MUPType1SessionTransformedRoute.DecodeFromBytes
      [0, 0, 0, 0, 0, 0, 0, 0, 33, 1, 2, 3, 4] = .err (invalidPrefixLengthMsg 33) ∧
    MUPType1SessionTransformedRoute.DecodeFromBytes
      (RouteDistinguisher.serialize ⟨9, 9, 9, 9, 9, 9, 9, 9⟩ ++ [(Addr.v4 10 0 0 1).bitLen] ++
        (Addr.v4 10 0 0 1).asSlice ++ [0, 0, 0, 7, 1, 40]) = .err (invalidEALMsg 40) ∧
    MUPType1SessionTransformedRoute.DecodeFromBytes
      (RouteDistinguisher.serialize ⟨9, 9, 9, 9, 9, 9, 9, 9⟩ ++ [(Addr.v4 10 0 0 1).bitLen] ++
        (Addr.v4 10 0 0 1).asSlice ++ [0, 0, 0, 7, 1, (Addr.v4 10 0 0 2).bitLen] ++
        (Addr.v4 10 0 0 2).asSlice) =
      .ok ⟨some ⟨9, 9, 9, 9, 9, 9, 9, 9⟩, (Addr.v4 10 0 0 1).bitLen, .v4 10 0 0 1,
        ((0 * 256 + 0) * 256 + 0) * 256 + 7, 1, (Addr.v4 10 0 0 2).bitLen, .v4 10 0 0 2⟩ :=
  ⟨c6_t1st_validation.1 [0, 0, 0, 0, 0, 0, 0, 0, 33, 1, 2, 3, 4] 33 (by decide)
      (by decide) (by decide),
   c6_t1st_validation.2.1 ⟨9, 9, 9, 9, 9, 9, 9, 9⟩ (.v4 10 0 0 1) 0 0 0 7 1 40
      (by decide) (by decide) (by decide),
   c6_t1st_validation.2.2 ⟨9, 9, 9, 9, 9, 9, 9, 9⟩ (.v4 10 0 0 1) (.v4 10 0 0 2) 0 0 0 7 1
      (by decide) (by decide)⟩

/-! ## Claim C4 -/

/-- Claim C4: decoding any proper non-empty prefix of a validly encoded
envelope (one whose stored length equals its body's serialized length) returns
a MalformedAttribute error — the truncated-header error below 4 octets, the
truncated-body error at 4 or more octets — and never panics or reads out of
bounds. -/
theorem c4_truncation (n : MUPNLRI) (d : MUPRouteTypeData) (b : List Nat) (k : Nat)
    (hd : n.RouteTypeData = some d) (hlen : n.Length = d.serialize.length)
    (hs : n.Serialize = .ok b) (hk0 : 0 < k) (hk : k < b.length) :
    MUPNLRI.DecodeFromBytes (b.take k) =
      .err (if k < 4 then "Not all MUPNLRI bytes available"
            else "Not all MUPNLRI Route type bytes available") := by
  unfold MUPNLRI.Serialize at hs
  rw [hd] at hs
  have hb : b = [n.ArchitectureType] ++ putUint16 n.RouteType ++ [n.Length] ++ d.serialize := by
    injection hs with h
    exact h.symm
  subst hb
  rw [List.length_append, List.length_append, List.length_append] at hk
  simp only [List.length_singleton, putUint16, List.length_cons, List.length_nil] at hk
  by_cases hk4 : k < 4
  · have h1 : (([n.ArchitectureType] ++ putUint16 n.RouteType ++ [n.Length] ++
        d.serialize).take k).length < 4 := by
      simp [List.length_take, putUint16]
      omega
    simp [MUPNLRI.DecodeFromBytes, h1, hk4]
  · obtain ⟨m, rfl⟩ : ∃ m, k = 4 + m := ⟨k - 4, by omega⟩
    have hds : m < d.serialize.length := by omega
    have hsplit : (([n.ArchitectureType] ++ putUint16 n.RouteType ++ [n.Length] ++
        d.serialize).take (4 + m)) =
        n.ArchitectureType :: n.RouteType / 256 % 256 :: n.RouteType % 256 :: n.Length ::
          d.serialize.take m := by
      rw [show 4 + m = m + 4 from by omega]
      simp [putUint16, List.take_succ_cons]
    rw [hsplit]
    have hcond : (d.serialize.take m).length < n.Length := by
      simp [List.length_take]
      omega
    simp [MUPNLRI.DecodeFromBytes, hcond, hk4,
      show m < n.Length from by omega,
      show ¬(m ⊓ d.serialize.length + 1 + 1 + 1 + 1 < 4) from by omega]

/-- Witness for C4 at a concrete envelope and prefix, via `c4_truncation`. -/
theorem c4_witness :
    MUPNLRI.DecodeFromBytes
      (([1, 0, 2, 12, 1, 2, 3, 4, 5, 6, 7, 8, 10, 0, 0, 1] : List Nat).take 7) =
      .err "Not all MUPNLRI Route type bytes available" := by
  have h := c4_truncation
    ⟨1, 2, 12, some (.dsd ⟨some ⟨1, 2, 3, 4, 5, 6, 7, 8⟩, .v4 10 0 0 1⟩)⟩
    (.dsd ⟨some ⟨1, 2, 3, 4, 5, 6, 7, 8⟩, .v4 10 0 0 1⟩)
    [1, 0, 2, 12, 1, 2, 3, 4, 5, 6, 7, 8, 10, 0, 0, 1] 7
    rfl (by decide) (by decide) (by decide) (by decide)
  simpa using h

/-! ## Claim C3 -/
lemma isd_body_roundtrip (rd : RouteDistinguisher) (pl : Nat) (a : Addr)
    (ha : a ≠ .zero) (hpl : pl ≤ a.bitLen) :
    MUPInterworkSegmentDiscoveryRoute.DecodeFromBytes
      (MUPInterworkSegmentDiscoveryRoute.serialize ⟨some rd, pl, ⟨a, (pl : Int)⟩⟩) =
      .ok ⟨some rd, pl, ⟨a, (pl : Int)⟩⟩ := by
  obtain ⟨b0, b1, b2, b3, b4, b5, b6, b7⟩ := rd
  cases a with
  | zero => exact absurd rfl ha
  | v4 x0 x1 x2 x3 =>
    simp only [Addr.bitLen] at hpl
    simp [MUPInterworkSegmentDiscoveryRoute.serialize,
      MUPInterworkSegmentDiscoveryRoute.DecodeFromBytes, rdBytesOrZero,
      RouteDistinguisher.serialize, GetRouteDistinguisher, RouteDistinguisher.rdLen,
      Addr.asSlice, AddrFromSlice, PrefixFrom, Int.natCast_nonneg, Addr.bitLen,
      show ((pl : Int) ≤ 32) from by exact_mod_cast hpl,
      show ((pl : Int)) ≠ -1 from by omega]
  | v6 x0 x1 x2 x3 x4 x5 x6 x7 x8 x9 x10 x11 x12 x13 x14 x15 =>
    simp only [Addr.bitLen] at hpl
    simp [MUPInterworkSegmentDiscoveryRoute.serialize,
      MUPInterworkSegmentDiscoveryRoute.DecodeFromBytes, rdBytesOrZero,
      RouteDistinguisher.serialize, GetRouteDistinguisher, RouteDistinguisher.rdLen,
      Addr.asSlice, AddrFromSlice, PrefixFrom, Int.natCast_nonneg, Addr.bitLen,
      show ((pl : Int) ≤ 128) from by exact_mod_cast hpl,
      show ((pl : Int)) ≠ -1 from by omega]

lemma dsd_body_roundtrip (rd : RouteDistinguisher) (a : Addr) (ha : a ≠ .zero) :
    MUPDirectSegmentDiscoveryRoute.DecodeFromBytes
      (MUPDirectSegmentDiscoveryRoute.serialize ⟨some rd, a⟩) = .ok ⟨some rd, a⟩ := by
  obtain ⟨b0, b1, b2, b3, b4, b5, b6, b7⟩ := rd
  cases a with
  | zero => exact absurd rfl ha
  | v4 x0 x1 x2 x3 =>
    simp [MUPDirectSegmentDiscoveryRoute.serialize,
      MUPDirectSegmentDiscoveryRoute.DecodeFromBytes, rdBytesOrZero,
      RouteDistinguisher.serialize, GetRouteDistinguisher, RouteDistinguisher.rdLen,
      Addr.asSlice, AddrFromSlice, goSlice]
  | v6 x0 x1 x2 x3 x4 x5 x6 x7 x8 x9 x10 x11 x12 x13 x14 x15 =>
    simp [MUPDirectSegmentDiscoveryRoute.serialize,
      MUPDirectSegmentDiscoveryRoute.DecodeFromBytes, rdBytesOrZero,
      RouteDistinguisher.serialize, GetRouteDistinguisher, RouteDistinguisher.rdLen,
      Addr.asSlice, AddrFromSlice, goSlice]

lemma t1st_body_roundtrip (rd : RouteDistinguisher) (pre ea : Addr) (teid qfi : Nat)
    (hpre : pre ≠ .zero) (hea : ea ≠ .zero) (ht : teid < 4294967296) :
    MUPType1SessionTransformedRoute.DecodeFromBytes
      (MUPType1SessionTransformedRoute.serialize
        ⟨some rd, pre.bitLen, pre, teid, qfi, ea.bitLen, ea⟩) =
      .ok ⟨some rd, pre.bitLen, pre, teid, qfi, ea.bitLen, ea⟩ := by
  obtain ⟨b0, b1, b2, b3, b4, b5, b6, b7⟩ := rd
  cases pre with
  | zero => exact absurd rfl hpre
  | v4 x0 x1 x2 x3 =>
    cases ea with
    | zero => exact absurd rfl hea
    | v4 y0 y1 y2 y3 =>
      simp [MUPType1SessionTransformedRoute.serialize,
        MUPType1SessionTransformedRoute.DecodeFromBytes, rdBytesOrZero,
        RouteDistinguisher.serialize, GetRouteDistinguisher, RouteDistinguisher.rdLen,
        Addr.asSlice, Addr.bitLen, AddrFromSlice, goSlice, goUint32, putUint32]
      omega
    | v6 y0 y1 y2 y3 y4 y5 y6 y7 y8 y9 y10 y11 y12 y13 y14 y15 =>
      simp [MUPType1SessionTransformedRoute.serialize,
        MUPType1SessionTransformedRoute.DecodeFromBytes, rdBytesOrZero,
        RouteDistinguisher.serialize, GetRouteDistinguisher, RouteDistinguisher.rdLen,
        Addr.asSlice, Addr.bitLen, AddrFromSlice, goSlice, goUint32, putUint32]
      omega
  | v6 x0 x1 x2 x3 x4 x5 x6 x7 x8 x9 x10 x11 x12 x13 x14 x15 =>
    cases ea with
    | zero => exact absurd rfl hea
    | v4 y0 y1 y2 y3 =>
      simp [MUPType1SessionTransformedRoute.serialize,
        MUPType1SessionTransformedRoute.DecodeFromBytes, rdBytesOrZero,
        RouteDistinguisher.serialize, GetRouteDistinguisher, RouteDistinguisher.rdLen,
        Addr.asSlice, Addr.bitLen, AddrFromSlice, goSlice, goUint32, putUint32]
      omega
    | v6 y0 y1 y2 y3 y4 y5 y6 y7 y8 y9 y10 y11 y12 y13 y14 y15 =>
      simp [MUPType1SessionTransformedRoute.serialize,
        MUPType1SessionTransformedRoute.DecodeFromBytes, rdBytesOrZero,
        RouteDistinguisher.serialize, GetRouteDistinguisher, RouteDistinguisher.rdLen,
        Addr.asSlice, Addr.bitLen, AddrFromSlice, goSlice, goUint32, putUint32]
      omega

lemma t2st_body_roundtrip (rd : RouteDistinguisher) (ea : Addr) (teid : Nat)
    (hea : ea ≠ .zero) (ht : teid < 4294967296) :
    MUPType2SessionTransformedRoute.DecodeFromBytes
      (MUPType2SessionTransformedRoute.serialize ⟨some rd, ea.bitLen + 32, ea, teid⟩) =
      .ok ⟨some rd, ea.bitLen + 32, ea, teid⟩ := by
  obtain ⟨b0, b1, b2, b3, b4, b5, b6, b7⟩ := rd
  cases ea with
  | zero => exact absurd rfl hea
  | v4 y0 y1 y2 y3 =>
    simp [MUPType2SessionTransformedRoute.serialize,
      MUPType2SessionTransformedRoute.DecodeFromBytes, rdBytesOrZero,
      RouteDistinguisher.serialize, GetRouteDistinguisher, RouteDistinguisher.rdLen,
      Addr.asSlice, Addr.bitLen, AddrFromSlice, goSlice, goUint32, putUint32]
    omega
  | v6 y0 y1 y2 y3 y4 y5 y6 y7 y8 y9 y10 y11 y12 y13 y14 y15 =>
    simp [MUPType2SessionTransformedRoute.serialize,
      MUPType2SessionTransformedRoute.DecodeFromBytes, rdBytesOrZero,
      RouteDistinguisher.serialize, GetRouteDistinguisher, RouteDistinguisher.rdLen,
      Addr.asSlice, Addr.bitLen, AddrFromSlice, goSlice, goUint32, putUint32]
    omega

lemma mupnlri_decode_ok (archT rt L : Nat) (body : List Nat) (tag : MUPRouteTag)
    (d : MUPRouteTypeData) (hL : body.length = L) (hrt : rt < 65536)
    (hreg : getMUPRouteType archT rt = .ok tag)
    (hbody : decodeRouteBody tag body = .ok d) :
    MUPNLRI.DecodeFromBytes ([archT] ++ putUint16 rt ++ [L] ++ body) =
      .ok ⟨archT, rt, L, some d⟩ := by
  have harith : rt / 256 % 256 * 256 + rt % 256 = rt := by omega
  have htake : body.take L = body := by
    rw [← hL]
    exact List.take_length body
  simp [MUPNLRI.DecodeFromBytes, putUint16, hL, harith, htake, hreg, hbody]

set_option maxRecDepth 30000 in
/-- Claim C3 (amended): for every validly constructed route-variant value,
serializing the envelope built by `NewMUPNLRI` and decoding the result gives
back exactly that envelope, and re-serializing whatever decode returns
reproduces the byte string; the unrestricted second direction (any bytes that
decode successfully re-encode to themselves) fails because decode accepts and
discards trailing bytes beyond the declared body length. -/
theorem c3_roundtrip (d : MUPRouteTypeData) (hwf : d.wf) :
    (NewMUPNLRI MUP_ARCH_TYPE_3GPP_5G d.routeType (some d)).Serialize =
      .ok ([MUP_ARCH_TYPE_3GPP_5G] ++ putUint16 d.routeType ++ [d.len % 256] ++
        d.serialize) ∧
    MUPNLRI.DecodeFromBytes
      ([MUP_ARCH_TYPE_3GPP_5G] ++ putUint16 d.routeType ++ [d.len % 256] ++ d.serialize) =
      .ok (NewMUPNLRI MUP_ARCH_TYPE_3GPP_5G d.routeType (some d)) ∧
    (∀ n', MUPNLRI.DecodeFromBytes
        ([MUP_ARCH_TYPE_3GPP_5G] ++ putUint16 d.routeType ++ [d.len % 256] ++ d.serialize) =
        .ok n' →
      n'.Serialize =
        .ok ([MUP_ARCH_TYPE_3GPP_5G] ++ putUint16 d.routeType ++ [d.len % 256] ++
          d.serialize)) := by
  have hdec : MUPNLRI.DecodeFromBytes
      ([MUP_ARCH_TYPE_3GPP_5G] ++ putUint16 d.routeType ++ [d.len % 256] ++ d.serialize) =
      .ok (NewMUPNLRI MUP_ARCH_TYPE_3GPP_5G d.routeType (some d)) := by
    cases d with
    | isd r =>
      obtain ⟨oRD, pl, a, bits⟩ := r
      obtain ⟨hrd, ha, hbits, hpl⟩ := hwf
      obtain ⟨rd, rfl⟩ := Option.isSome_iff_exists.1 hrd
      simp only at ha hbits hpl
      subst hbits
      have hb := isd_body_roundtrip rd pl a ha hpl
      cases a with
      | v4 x0 x1 x2 x3 =>
        have hL : (MUPInterworkSegmentDiscoveryRoute.serialize
            ⟨some rd, pl, ⟨Addr.v4 x0 x1 x2 x3, (pl : Int)⟩⟩).length = 13 := by
          simp [MUPInterworkSegmentDiscoveryRoute.serialize, rdBytesOrZero,
            RouteDistinguisher.serialize, Addr.asSlice]
        have hbody : decodeRouteBody .isd (MUPInterworkSegmentDiscoveryRoute.serialize
            ⟨some rd, pl, ⟨Addr.v4 x0 x1 x2 x3, (pl : Int)⟩⟩) =
            .ok (.isd ⟨some rd, pl, ⟨Addr.v4 x0 x1 x2 x3, (pl : Int)⟩⟩) := by
          simp [decodeRouteBody, hb]
        simp only [MUPRouteTypeData.routeType, MUPRouteTypeData.len,
          MUPRouteTypeData.serialize, MUPInterworkSegmentDiscoveryRoute.len,
          MUPDirectSegmentDiscoveryRoute.len, MUPType1SessionTransformedRoute.len,
          MUPType2SessionTransformedRoute.len, Addr.bitLen, MUP_ARCH_TYPE_3GPP_5G,
          MUP_ROUTE_TYPE_INTERWORK_SEGMENT_DISCOVERY, MUP_ROUTE_TYPE_DIRECT_SEGMENT_DISCOVERY,
          MUP_ROUTE_TYPE_TYPE_1_SESSION_TRANSFORMED, MUP_ROUTE_TYPE_TYPE_2_SESSION_TRANSFORMED,
          NewMUPNLRI]
        norm_num
        exact mupnlri_decode_ok 1 1 13 _ .isd _ hL (by omega) rfl hbody
      | v6 x0 x1 x2 x3 x4 x5 x6 x7 x8 x9 x10 x11 x12 x13 x14 x15 =>
        have hL : (MUPInterworkSegmentDiscoveryRoute.serialize
            ⟨some rd, pl, ⟨Addr.v6 x0 x1 x2 x3 x4 x5 x6 x7 x8 x9 x10 x11 x12 x13 x14 x15,
              (pl : Int)⟩⟩).length = 25 := by
          simp [MUPInterworkSegmentDiscoveryRoute.serialize, rdBytesOrZero,
            RouteDistinguisher.serialize, Addr.asSlice]
        have hbody : decodeRouteBody .isd (MUPInterworkSegmentDiscoveryRoute.serialize
            ⟨some rd, pl, ⟨Addr.v6 x0 x1 x2 x3 x4 x5 x6 x7 x8 x9 x10 x11 x12 x13 x14 x15,
              (pl : Int)⟩⟩) =
            .ok (.isd ⟨some rd, pl,
              ⟨Addr.v6 x0 x1 x2 x3 x4 x5 x6 x7 x8 x9 x10 x11 x12 x13 x14 x15,
                (pl : Int)⟩⟩) := by
          simp [decodeRouteBody, hb]
        simp only [MUPRouteTypeData.routeType, MUPRouteTypeData.len,
          MUPRouteTypeData.serialize, MUPInterworkSegmentDiscoveryRoute.len,
          MUPDirectSegmentDiscoveryRoute.len, MUPType1SessionTransformedRoute.len,
          MUPType2SessionTransformedRoute.len, Addr.bitLen, MUP_ARCH_TYPE_3GPP_5G,
          MUP_ROUTE_TYPE_INTERWORK_SEGMENT_DISCOVERY, MUP_ROUTE_TYPE_DIRECT_SEGMENT_DISCOVERY,
          MUP_ROUTE_TYPE_TYPE_1_SESSION_TRANSFORMED, MUP_ROUTE_TYPE_TYPE_2_SESSION_TRANSFORMED,
          NewMUPNLRI]
        norm_num
        exact mupnlri_decode_ok 1 1 25 _ .isd _ hL (by omega) rfl hbody
      | zero => exact absurd rfl ha
    | dsd r =>
      obtain ⟨oRD, a⟩ := r
      obtain ⟨hrd, ha⟩ := hwf
      obtain ⟨rd, rfl⟩ := Option.isSome_iff_exists.1 hrd
      simp only at ha
      have hb := dsd_body_roundtrip rd a ha
      cases a with
      | v4 x0 x1 x2 x3 =>
        have hL : (MUPDirectSegmentDiscoveryRoute.serialize
            ⟨some rd, Addr.v4 x0 x1 x2 x3⟩).length = 12 := by
          simp [MUPDirectSegmentDiscoveryRoute.serialize, rdBytesOrZero,
            RouteDistinguisher.serialize, Addr.asSlice]
        have hbody : decodeRouteBody .dsd (MUPDirectSegmentDiscoveryRoute.serialize
            ⟨some rd, Addr.v4 x0 x1 x2 x3⟩) =
            .ok (.dsd ⟨some rd, Addr.v4 x0 x1 x2 x3⟩) := by
          simp [decodeRouteBody, hb]
        simp only [MUPRouteTypeData.routeType, MUPRouteTypeData.len,
          MUPRouteTypeData.serialize, MUPInterworkSegmentDiscoveryRoute.len,
          MUPDirectSegmentDiscoveryRoute.len, MUPType1SessionTransformedRoute.len,
          MUPType2SessionTransformedRoute.len, Addr.bitLen, MUP_ARCH_TYPE_3GPP_5G,
          MUP_ROUTE_TYPE_INTERWORK_SEGMENT_DISCOVERY, MUP_ROUTE_TYPE_DIRECT_SEGMENT_DISCOVERY,
          MUP_ROUTE_TYPE_TYPE_1_SESSION_TRANSFORMED, MUP_ROUTE_TYPE_TYPE_2_SESSION_TRANSFORMED,
          NewMUPNLRI]
        norm_num
        exact mupnlri_decode_ok 1 2 12 _ .dsd _ hL (by omega) rfl hbody
      | v6 x0 x1 x2 x3 x4 x5 x6 x7 x8 x9 x10 x11 x12 x13 x14 x15 =>
        have hL : (MUPDirectSegmentDiscoveryRoute.serialize
            ⟨some rd, Addr.v6 x0 x1 x2 x3 x4 x5 x6 x7 x8 x9 x10 x11 x12 x13 x14 x15⟩).length =
            24 := by
          simp [MUPDirectSegmentDiscoveryRoute.serialize, rdBytesOrZero,
            RouteDistinguisher.serialize, Addr.asSlice]
        have hbody : decodeRouteBody .dsd (MUPDirectSegmentDiscoveryRoute.serialize
            ⟨some rd, Addr.v6 x0 x1 x2 x3 x4 x5 x6 x7 x8 x9 x10 x11 x12 x13 x14 x15⟩) =
            .ok (.dsd ⟨some rd,
              Addr.v6 x0 x1 x2 x3 x4 x5 x6 x7 x8 x9 x10 x11 x12 x13 x14 x15⟩) := by
          simp [decodeRouteBody, hb]
        simp only [MUPRouteTypeData.routeType, MUPRouteTypeData.len,
          MUPRouteTypeData.serialize, MUPInterworkSegmentDiscoveryRoute.len,
          MUPDirectSegmentDiscoveryRoute.len, MUPType1SessionTransformedRoute.len,
          MUPType2SessionTransformedRoute.len, Addr.bitLen, MUP_ARCH_TYPE_3GPP_5G,
          MUP_ROUTE_TYPE_INTERWORK_SEGMENT_DISCOVERY, MUP_ROUTE_TYPE_DIRECT_SEGMENT_DISCOVERY,
          MUP_ROUTE_TYPE_TYPE_1_SESSION_TRANSFORMED, MUP_ROUTE_TYPE_TYPE_2_SESSION_TRANSFORMED,
          NewMUPNLRI]
        norm_num
        exact mupnlri_decode_ok 1 2 24 _ .dsd _ hL (by omega) rfl hbody
      | zero => exact absurd rfl ha
    | t1st r =>
      obtain ⟨oRD, pl, pre, teid, qfi, eal, ea⟩ := r
      obtain ⟨hrd, hpre, hea, hpl, heal, ht⟩ := hwf
      obtain ⟨rd, rfl⟩ := Option.isSome_iff_exists.1 hrd
      simp only at hpre hea hpl heal ht
      subst hpl
      subst heal
      have hb := t1st_body_roundtrip rd pre ea teid qfi hpre hea ht
      have hbody : decodeRouteBody .t1st (MUPType1SessionTransformedRoute.serialize
          ⟨some rd, pre.bitLen, pre, teid, qfi, ea.bitLen, ea⟩) =
          .ok (.t1st ⟨some rd, pre.bitLen, pre, teid, qfi, ea.bitLen, ea⟩) := by
        simp [decodeRouteBody, hb]
      cases pre with
      | v4 x0 x1 x2 x3 =>
        cases ea with
        | v4 y0 y1 y2 y3 =>
          have hL : (MUPType1SessionTransformedRoute.serialize
              ⟨some rd, (Addr.v4 x0 x1 x2 x3).bitLen, Addr.v4 x0 x1 x2 x3, teid, qfi,
                (Addr.v4 y0 y1 y2 y3).bitLen, Addr.v4 y0 y1 y2 y3⟩).length = 23 := by
            simp [MUPType1SessionTransformedRoute.serialize, rdBytesOrZero,
              RouteDistinguisher.serialize, Addr.asSlice, putUint32]
          simp only [MUPRouteTypeData.routeType, MUPRouteTypeData.len,
            MUPRouteTypeData.serialize, MUPInterworkSegmentDiscoveryRoute.len,
            MUPDirectSegmentDiscoveryRoute.len, MUPType1SessionTransformedRoute.len,
            MUPType2SessionTransformedRoute.len, Addr.bitLen, MUP_ARCH_TYPE_3GPP_5G,
            MUP_ROUTE_TYPE_INTERWORK_SEGMENT_DISCOVERY, MUP_ROUTE_TYPE_DIRECT_SEGMENT_DISCOVERY,
            MUP_ROUTE_TYPE_TYPE_1_SESSION_TRANSFORMED, MUP_ROUTE_TYPE_TYPE_2_SESSION_TRANSFORMED,
            NewMUPNLRI]
          norm_num
          exact mupnlri_decode_ok 1 3 23 _ .t1st _ hL (by omega) rfl hbody
        | v6 y0 y1 y2 y3 y4 y5 y6 y7 y8 y9 y10 y11 y12 y13 y14 y15 =>
          have hL : (MUPType1SessionTransformedRoute.serialize
              ⟨some rd, (Addr.v4 x0 x1 x2 x3).bitLen, Addr.v4 x0 x1 x2 x3, teid, qfi,
                (Addr.v6 y0 y1 y2 y3 y4 y5 y6 y7 y8 y9 y10 y11 y12 y13 y14 y15).bitLen,
                Addr.v6 y0 y1 y2 y3 y4 y5 y6 y7 y8 y9 y10 y11 y12 y13 y14 y15⟩).length =
              35 := by
            simp [MUPType1SessionTransformedRoute.serialize, rdBytesOrZero,
              RouteDistinguisher.serialize, Addr.asSlice, putUint32]
          simp only [MUPRouteTypeData.routeType, MUPRouteTypeData.len,
            MUPRouteTypeData.serialize, MUPInterworkSegmentDiscoveryRoute.len,
            MUPDirectSegmentDiscoveryRoute.len, MUPType1SessionTransformedRoute.len,
            MUPType2SessionTransformedRoute.len, Addr.bitLen, MUP_ARCH_TYPE_3GPP_5G,
            MUP_ROUTE_TYPE_INTERWORK_SEGMENT_DISCOVERY, MUP_ROUTE_TYPE_DIRECT_SEGMENT_DISCOVERY,
            MUP_ROUTE_TYPE_TYPE_1_SESSION_TRANSFORMED, MUP_ROUTE_TYPE_TYPE_2_SESSION_TRANSFORMED,
            NewMUPNLRI]
          norm_num
          exact mupnlri_decode_ok 1 3 35 _ .t1st _ hL (by omega) rfl hbody
        | zero => exact absurd rfl hea
      | v6 x0 x1 x2 x3 x4 x5 x6 x7 x8 x9 x10 x11 x12 x13 x14 x15 =>
        cases ea with
        | v4 y0 y1 y2 y3 =>
          have hL : (MUPType1SessionTransformedRoute.serialize
              ⟨some rd, (Addr.v6 x0 x1 x2 x3 x4 x5 x6 x7 x8 x9 x10 x11 x12 x13 x14 x15).bitLen,
                Addr.v6 x0 x1 x2 x3 x4 x5 x6 x7 x8 x9 x10 x11 x12 x13 x14 x15, teid, qfi,
                (Addr.v4 y0 y1 y2 y3).bitLen, Addr.v4 y0 y1 y2 y3⟩).length = 35 := by
            simp [MUPType1SessionTransformedRoute.serialize, rdBytesOrZero,
              RouteDistinguisher.serialize, Addr.asSlice, putUint32]
          simp only [MUPRouteTypeData.routeType, MUPRouteTypeData.len,
            MUPRouteTypeData.serialize, MUPInterworkSegmentDiscoveryRoute.len,
            MUPDirectSegmentDiscoveryRoute.len, MUPType1SessionTransformedRoute.len,
            MUPType2SessionTransformedRoute.len, Addr.bitLen, MUP_ARCH_TYPE_3GPP_5G,
            MUP_ROUTE_TYPE_INTERWORK_SEGMENT_DISCOVERY, MUP_ROUTE_TYPE_DIRECT_SEGMENT_DISCOVERY,
            MUP_ROUTE_TYPE_TYPE_1_SESSION_TRANSFORMED, MUP_ROUTE_TYPE_TYPE_2_SESSION_TRANSFORMED,
            NewMUPNLRI]
          norm_num
          exact mupnlri_decode_ok 1 3 35 _ .t1st _ hL (by omega) rfl hbody
        | v6 y0 y1 y2 y3 y4 y5 y6 y7 y8 y9 y10 y11 y12 y13 y14 y15 =>
          have hL : (MUPType1SessionTransformedRoute.serialize
              ⟨some rd, (Addr.v6 x0 x1 x2 x3 x4 x5 x6 x7 x8 x9 x10 x11 x12 x13 x14 x15).bitLen,
                Addr.v6 x0 x1 x2 x3 x4 x5 x6 x7 x8 x9 x10 x11 x12 x13 x14 x15, teid, qfi,
                (Addr.v6 y0 y1 y2 y3 y4 y5 y6 y7 y8 y9 y10 y11 y12 y13 y14 y15).bitLen,
                Addr.v6 y0 y1 y2 y3 y4 y5 y6 y7 y8 y9 y10 y11 y12 y13 y14 y15⟩).length =
              47 := by
            simp [MUPType1SessionTransformedRoute.serialize, rdBytesOrZero,
              RouteDistinguisher.serialize, Addr.asSlice, putUint32]
          simp only [MUPRouteTypeData.routeType, MUPRouteTypeData.len,
            MUPRouteTypeData.serialize, MUPInterworkSegmentDiscoveryRoute.len,
            MUPDirectSegmentDiscoveryRoute.len, MUPType1SessionTransformedRoute.len,
            MUPType2SessionTransformedRoute.len, Addr.bitLen, MUP_ARCH_TYPE_3GPP_5G,
            MUP_ROUTE_TYPE_INTERWORK_SEGMENT_DISCOVERY, MUP_ROUTE_TYPE_DIRECT_SEGMENT_DISCOVERY,
            MUP_ROUTE_TYPE_TYPE_1_SESSION_TRANSFORMED, MUP_ROUTE_TYPE_TYPE_2_SESSION_TRANSFORMED,
            NewMUPNLRI]
          norm_num
          exact mupnlri_decode_ok 1 3 47 _ .t1st _ hL (by omega) rfl hbody
        | zero => exact absurd rfl hea
      | zero => exact absurd rfl hpre
    | t2st r =>
      obtain ⟨oRD, eal, ea, teid⟩ := r
      obtain ⟨hrd, hea, heal, ht⟩ := hwf
      obtain ⟨rd, rfl⟩ := Option.isSome_iff_exists.1 hrd
      simp only at hea heal ht
      subst heal
      have hb := t2st_body_roundtrip rd ea teid hea ht
      have hbody : decodeRouteBody .t2st (MUPType2SessionTransformedRoute.serialize
          ⟨some rd, ea.bitLen + 32, ea, teid⟩) =
          .ok (.t2st ⟨some rd, ea.bitLen + 32, ea, teid⟩) := by
        simp [decodeRouteBody, hb]
      cases ea with
      | v4 y0 y1 y2 y3 =>
        have hL : (MUPType2SessionTransformedRoute.serialize
            ⟨some rd, (Addr.v4 y0 y1 y2 y3).bitLen + 32, Addr.v4 y0 y1 y2 y3,
              teid⟩).length = 17 := by
          simp [MUPType2SessionTransformedRoute.serialize, rdBytesOrZero,
            RouteDistinguisher.serialize, Addr.asSlice, putUint32]
        simp only [MUPRouteTypeData.routeType, MUPRouteTypeData.len,
          MUPRouteTypeData.serialize, MUPInterworkSegmentDiscoveryRoute.len,
          MUPDirectSegmentDiscoveryRoute.len, MUPType1SessionTransformedRoute.len,
          MUPType2SessionTransformedRoute.len, Addr.bitLen, MUP_ARCH_TYPE_3GPP_5G,
          MUP_ROUTE_TYPE_INTERWORK_SEGMENT_DISCOVERY, MUP_ROUTE_TYPE_DIRECT_SEGMENT_DISCOVERY,
          MUP_ROUTE_TYPE_TYPE_1_SESSION_TRANSFORMED, MUP_ROUTE_TYPE_TYPE_2_SESSION_TRANSFORMED,
          NewMUPNLRI]
        norm_num
        exact mupnlri_decode_ok 1 4 17 _ .t2st _ hL (by omega) rfl hbody
      | v6 y0 y1 y2 y3 y4 y5 y6 y7 y8 y9 y10 y11 y12 y13 y14 y15 =>
        have hL : (MUPType2SessionTransformedRoute.serialize
            ⟨some rd,
              (Addr.v6 y0 y1 y2 y3 y4 y5 y6 y7 y8 y9 y10 y11 y12 y13 y14 y15).bitLen + 32,
              Addr.v6 y0 y1 y2 y3 y4 y5 y6 y7 y8 y9 y10 y11 y12 y13 y14 y15,
              teid⟩).length = 29 := by
          simp [MUPType2SessionTransformedRoute.serialize, rdBytesOrZero,
            RouteDistinguisher.serialize, Addr.asSlice, putUint32]
        simp only [MUPRouteTypeData.routeType, MUPRouteTypeData.len,
          MUPRouteTypeData.serialize, MUPInterworkSegmentDiscoveryRoute.len,
          MUPDirectSegmentDiscoveryRoute.len, MUPType1SessionTransformedRoute.len,
          MUPType2SessionTransformedRoute.len, Addr.bitLen, MUP_ARCH_TYPE_3GPP_5G,
          MUP_ROUTE_TYPE_INTERWORK_SEGMENT_DISCOVERY, MUP_ROUTE_TYPE_DIRECT_SEGMENT_DISCOVERY,
          MUP_ROUTE_TYPE_TYPE_1_SESSION_TRANSFORMED, MUP_ROUTE_TYPE_TYPE_2_SESSION_TRANSFORMED,
          NewMUPNLRI]
        norm_num
        exact mupnlri_decode_ok 1 4 29 _ .t2st _ hL (by omega) rfl hbody
      | zero => exact absurd rfl hea
  refine ⟨rfl, hdec, fun n' h => ?_⟩
  rw [hdec] at h
  injection h with h
  subst h
  rfl

/-- Claim C3 (counterexample): a byte string with one trailing octet beyond the
declared body length decodes successfully, but re-encoding the decoded envelope
does not reproduce the original bytes, refuting the unrestricted
`encode(decode(bytes)) == bytes` direction. -/
theorem c3_counterexample :
    MUPNLRI.DecodeFromBytes
      ([1, 0, 2, 12] ++ [0, 0, 0, 0, 0, 0, 0, 0] ++ [10, 0, 0, 1] ++ [99]) =
      .ok ⟨1, 2, 12, some (.dsd ⟨some ⟨0, 0, 0, 0, 0, 0, 0, 0⟩, .v4 10 0 0 1⟩)⟩ ∧
    MUPNLRI.Serialize ⟨1, 2, 12, some (.dsd ⟨some ⟨0, 0, 0, 0, 0, 0, 0, 0⟩, .v4 10 0 0 1⟩)⟩ =
      .ok ([1, 0, 2, 12] ++ [0, 0, 0, 0, 0, 0, 0, 0] ++ [10, 0, 0, 1]) ∧
    ([1, 0, 2, 12] ++ [0, 0, 0, 0, 0, 0, 0, 0] ++ [10, 0, 0, 1] : List Nat) ≠
      [1, 0, 2, 12] ++ [0, 0, 0, 0, 0, 0, 0, 0] ++ [10, 0, 0, 1] ++ [99] := by
  refine ⟨by decide, by decide, by decide⟩

/-- Witness for C3 (amended) at a concrete validly constructed value, via
`c3_roundtrip`. -/
theorem c3_witness :
    (NewMUPNLRI MUP_ARCH_TYPE_3GPP_5G
        (MUPRouteTypeData.dsd ⟨some ⟨1, 2, 3, 4, 5, 6, 7, 8⟩, .v4 10 0 0 1⟩).routeType
        (some (.dsd ⟨some ⟨1, 2, 3, 4, 5, 6, 7, 8⟩, .v4 10 0 0 1⟩))).Serialize =
      .ok ([MUP_ARCH_TYPE_3GPP_5G] ++
        putUint16 (MUPRouteTypeData.dsd ⟨some ⟨1, 2, 3, 4, 5, 6, 7, 8⟩, .v4 10 0 0 1⟩).routeType ++
        [(MUPRouteTypeData.dsd ⟨some ⟨1, 2, 3, 4, 5, 6, 7, 8⟩, .v4 10 0 0 1⟩).len % 256] ++
        (MUPRouteTypeData.dsd ⟨some ⟨1, 2, 3, 4, 5, 6, 7, 8⟩, .v4 10 0 0 1⟩).serialize) ∧
    MUPNLRI.DecodeFromBytes
      ([MUP_ARCH_TYPE_3GPP_5G] ++
        putUint16 (MUPRouteTypeData.dsd ⟨some ⟨1, 2, 3, 4, 5, 6, 7, 8⟩, .v4 10 0 0 1⟩).routeType ++
        [(MUPRouteTypeData.dsd ⟨some ⟨1, 2, 3, 4, 5, 6, 7, 8⟩, .v4 10 0 0 1⟩).len % 256] ++
        (MUPRouteTypeData.dsd ⟨some ⟨1, 2, 3, 4, 5, 6, 7, 8⟩, .v4 10 0 0 1⟩).serialize) =
      .ok (NewMUPNLRI MUP_ARCH_TYPE_3GPP_5G
        (MUPRouteTypeData.dsd ⟨some ⟨1, 2, 3, 4, 5, 6, 7, 8⟩, .v4 10 0 0 1⟩).routeType
        (some (.dsd ⟨some ⟨1, 2, 3, 4, 5, 6, 7, 8⟩, .v4 10 0 0 1⟩))) :=
  ⟨(c3_roundtrip (.dsd ⟨some ⟨1, 2, 3, 4, 5, 6, 7, 8⟩, .v4 10 0 0 1⟩) ⟨rfl, by decide⟩).1,
   (c3_roundtrip (.dsd ⟨some ⟨1, 2, 3, 4, 5, 6, 7, 8⟩, .v4 10 0 0 1⟩) ⟨rfl, by decide⟩).2.1⟩
